import Mathlib

/-
Verification of the hana-block (perforated screen) transmittance engine.

The Python source computes, for an aperture block (square / circle / triangle
opening), the fraction of direct sunlight transmitted as a function of the
shadow displacement of a rim point, plus a shadow projector and a diffuse-light
integrator.  Python floats are modelled by `PFloat`: either the quiet NaN
(`np.nan`) or an ideal real number.  Python float division raises
`ZeroDivisionError` when the divisor is exactly zero, so division returns
`Option PFloat` with `none` standing for a raised exception; all other
arithmetic propagates NaN silently, and every comparison involving NaN is
false, exactly as in Python.
-/

namespace HanaBlock

open Real

/-- Model of a Python float value: either the quiet NaN produced by `np.nan`
(or by arithmetic on NaN), or an ideal real number. -/
inductive PFloat where
  | nan : PFloat
  | val : ℝ → PFloat

/-- Python float addition: NaN propagates. -/
def PFloat.add : PFloat → PFloat → PFloat
  | .val a, .val b => .val (a + b)
  | _, _ => .nan

/-- Python float subtraction: NaN propagates. -/
def PFloat.sub : PFloat → PFloat → PFloat
  | .val a, .val b => .val (a - b)
  | _, _ => .nan

/-- Python float multiplication: NaN propagates. -/
def PFloat.mul : PFloat → PFloat → PFloat
  | .val a, .val b => .val (a * b)
  | _, _ => .nan

/-- Python `abs`: NaN propagates. -/
def PFloat.abs : PFloat → PFloat
  | .val a => .val |a|
  | .nan => .nan

/-- Python unary minus: NaN propagates. -/
def PFloat.neg : PFloat → PFloat
  | .val a => .val (-a)
  | .nan => .nan

/-- Python `math.sqrt` (only ever applied to non-negative arguments in this
code base): NaN propagates. -/
noncomputable def PFloat.sqrt : PFloat → PFloat
  | .val a => .val (Real.sqrt a)
  | .nan => .nan

/-- Python `math.sin`: NaN propagates. -/
noncomputable def PFloat.sin : PFloat → PFloat
  | .val a => .val (Real.sin a)
  | .nan => .nan

/-- Python `math.acos` (only ever applied to arguments in `[-1, 1]` in this
code base): NaN propagates. -/
noncomputable def PFloat.acos : PFloat → PFloat
  | .val a => .val (Real.arccos a)
  | .nan => .nan

/-- Python float division.  CPython raises `ZeroDivisionError` whenever the
divisor is exactly `0.0` (even for a NaN dividend), modelled by `none`;
otherwise a NaN operand yields NaN. -/
noncomputable def PFloat.div (x y : PFloat) : Option PFloat :=
  match y with
  | .val b =>
      if b = 0 then none
      else
        match x with
        | .val a => some (.val (a / b))
        | .nan => some .nan
  | .nan => some .nan

/-- Python `x >= y` on floats: false whenever either operand is NaN. -/
def PFloat.ge : PFloat → PFloat → Prop
  | .val a, .val b => b ≤ a
  | _, _ => False

/-- Python `x < y` on floats: false whenever either operand is NaN. -/
def PFloat.lt : PFloat → PFloat → Prop
  | .val a, .val b => a < b
  | _, _ => False

/-- Python `math.isnan`. -/
def PFloat.isnan : PFloat → Prop
  | .nan => True
  | .val _ => False

noncomputable instance PFloat.ge.instDec : (x y : PFloat) → Decidable (x.ge y)
  | .val a, .val b => inferInstanceAs (Decidable (b ≤ a))
  | .nan, .nan => inferInstanceAs (Decidable False)
  | .nan, .val _ => inferInstanceAs (Decidable False)
  | .val _, .nan => inferInstanceAs (Decidable False)

noncomputable instance PFloat.lt.instDec : (x y : PFloat) → Decidable (x.lt y)
  | .val a, .val b => inferInstanceAs (Decidable (a < b))
  | .nan, .nan => inferInstanceAs (Decidable False)
  | .nan, .val _ => inferInstanceAs (Decidable False)
  | .val _, .nan => inferInstanceAs (Decidable False)

instance PFloat.isnan.instDec : (x : PFloat) → Decidable x.isnan
  | .nan => inferInstanceAs (Decidable True)
  | .val _ => inferInstanceAs (Decidable False)

/-- Embedding of `common.get_error_value`: the fixed error tolerance `0.0001`. -/
noncomputable def get_error_value : ℝ := 1 / 10000

/-- Embedding of `transmission_rate_base.base_transmission_rate_square`.
The spec fields are passed explicitly: `width`, `height` are `spec.width`,
`spec.height`, and `area` is `spec.area` (set to `width * height` by
`HanaBlockSpec.__post_init__` for a square). -/
noncomputable def base_transmission_rate_square (width height area : ℝ)
    (distance_vertical distance_horizontal : PFloat) : Option PFloat :=
  if distance_horizontal.isnan ∧ distance_vertical.isnan then
    some (.val 0)
  else
    let d_x := distance_horizontal.abs
    let d_y := distance_vertical.abs
    if d_x.ge (.val width) ∨ d_y.ge (.val height) then
      some (.val 0)
    else
      (((PFloat.val width).sub d_x).mul ((PFloat.val height).sub d_y)).div (.val area)

/-- C1: for every square aperture with `0 < width` and `0 < height` and every
displacement whose two coordinates are real (not NaN), the analytic
transmittance is `0` when `|horizontal| ≥ width` or `|vertical| ≥ height`, and
`(width − |horizontal|) · (height − |vertical|) / (width · height)` otherwise;
in particular the displacement `(0, 0)` gives exactly `1.0`. -/
theorem square_rate_closed_form (w h : ℝ) (hw : 0 < w) (hh : 0 < h) (dv dh : ℝ) :
    base_transmission_rate_square w h (w * h) (.val dv) (.val dh) =
      some (.val (if w ≤ |dh| ∨ h ≤ |dv| then 0 else (w - |dh|) * (h - |dv|) / (w * h))) ∧
    base_transmission_rate_square w h (w * h) (.val 0) (.val 0) = some (.val 1) := by
  have harea : ¬ (w * h = 0) := mul_ne_zero hw.ne' hh.ne'
  constructor
  · unfold base_transmission_rate_square
    simp only [PFloat.isnan, PFloat.abs, PFloat.ge, PFloat.sub, PFloat.mul, PFloat.div]
    rw [if_neg (by simp)]
    by_cases hc : w ≤ |dh| ∨ h ≤ |dv|
    · rw [if_pos hc, if_pos hc]
    · rw [if_neg hc, if_neg hc, if_neg harea]
  · unfold base_transmission_rate_square
    simp only [PFloat.isnan, PFloat.abs, PFloat.ge, PFloat.sub, PFloat.mul, PFloat.div]
    rw [if_neg (by simp)]
    rw [if_neg (by simp only [abs_zero]; push_neg; exact ⟨hw, hh⟩)]
    rw [if_neg harea]
    simp only [abs_zero, sub_zero, div_self harea]

/-- Witness for C1 at the concrete square `2 × 3` with displacement `(0, 0)`. -/
theorem square_rate_closed_form_witness :
    base_transmission_rate_square 2 3 (2 * 3) (.val 0) (.val 0) = some (.val 1) :=
  (square_rate_closed_form 2 3 (by norm_num) (by norm_num) 0 0).2

/-- Embedding of Python `math.radians`: degrees to radians. -/
noncomputable def radians (d : ℝ) : ℝ := d * Real.pi / 180

/-- Embedding of `distance_point_shadow.direction_cosine_of_sunlight`:
direction cosines `(s_h, s_w, s_s)` of the sun ray. -/
noncomputable def direction_cosine_of_sunlight (sun_altitude sun_azimuth_angle : ℝ) :
    ℝ × ℝ × ℝ :=
  (Real.sin (radians sun_altitude),
   Real.cos (radians sun_altitude) * Real.sin (radians sun_azimuth_angle),
   Real.cos (radians sun_altitude) * Real.cos (radians sun_azimuth_angle))

/-- Embedding of `distance_point_shadow.direction_cosine_of_slope_normal_line`:
direction cosines `(w_z, w_w, w_s)` of the surface normal. -/
noncomputable def direction_cosine_of_slope_normal_line
    (surface_inclination_angle surface_azimuth_angle : ℝ) : ℝ × ℝ × ℝ :=
  (Real.cos (radians surface_inclination_angle),
   Real.sin (radians surface_inclination_angle) * Real.sin (radians surface_azimuth_angle),
   Real.sin (radians surface_inclination_angle) * Real.cos (radians surface_azimuth_angle))

/-- Embedding of `distance_point_shadow.cosine_sun_incidence_angle`. -/
noncomputable def cosine_sun_incidence_angle (s_h s_w s_s w_z w_w w_s : ℝ) : ℝ :=
  s_h * w_z + s_w * w_w + s_s * w_s

/-- Embedding of `distance_point_shadow.tangent_profile_angle`: returns
`np.nan` when `cos_theta` is below the error tolerance. -/
noncomputable def tangent_profile_angle (s_h s_w s_s cos_theta : ℝ)
    (surface_inclination_angle surface_azimuth_angle : ℝ) : PFloat :=
  if cos_theta < get_error_value then .nan
  else
    .val ((s_h * Real.sin (radians surface_inclination_angle)
        - s_w * (Real.cos (radians surface_inclination_angle)
            * Real.sin (radians surface_azimuth_angle))
        - s_s * (Real.cos (radians surface_inclination_angle)
            * Real.cos (radians surface_azimuth_angle))) / cos_theta)

/-- Embedding of `distance_point_shadow.tangent_sun_azimuth_angle_of_surface`:
returns `np.nan` when `cos_theta` is below the error tolerance. -/
noncomputable def tangent_sun_azimuth_angle_of_surface (s_w s_s cos_theta : ℝ)
    (surface_azimuth_angle : ℝ) : PFloat :=
  if cos_theta < get_error_value then .nan
  else
    .val ((s_w * Real.cos (radians surface_azimuth_angle)
        - s_s * Real.sin (radians surface_azimuth_angle)) / cos_theta)

/-- Embedding of `distance_point_shadow.distance_of_points_shadow`.  The spec
fields `spec.inclination_angle`, `spec.azimuth_angle`, `spec.depth` are passed
explicitly; the result is `(distance_vertical, distance_horizontal)`. -/
noncomputable def distance_of_points_shadow
    (inclination_angle azimuth_angle depth sun_altitude sun_azimuth_angle : ℝ) :
    PFloat × PFloat :=
  let sc := direction_cosine_of_sunlight sun_altitude sun_azimuth_angle
  let wc := direction_cosine_of_slope_normal_line inclination_angle azimuth_angle
  let cos_theta := cosine_sun_incidence_angle sc.1 sc.2.1 sc.2.2 wc.1 wc.2.1 wc.2.2
  if cos_theta < get_error_value then (.nan, .nan)
  else
    let tan_phi := tangent_profile_angle sc.1 sc.2.1 sc.2.2 cos_theta
        inclination_angle azimuth_angle
    let tan_gamma := tangent_sun_azimuth_angle_of_surface sc.2.1 sc.2.2 cos_theta
        azimuth_angle
    ((PFloat.val depth).mul tan_phi, (PFloat.val depth).mul tan_gamma)

/-- C2: for every tilt `t`, azimuth `a`, depth `d`, sun altitude and sun
azimuth, the shadow-displacement computation returns the sentinel
`(NaN, NaN)` exactly when `cosθ = s_h·w_z + s_w·w_w + s_s·w_s` is below the
tolerance `1e-4`, and otherwise the pair `(d·tanφ, d·tanγ)` with
`tanφ = (s_h·sin t − s_w·cos t·sin a − s_s·cos t·cos a)/cosθ` and
`tanγ = (s_w·cos a − s_s·sin a)/cosθ`. -/
theorem distance_of_points_shadow_spec (t a d hs az : ℝ) :
    distance_of_points_shadow t a d hs az =
      (let s_h := Real.sin (radians hs)
       let s_w := Real.cos (radians hs) * Real.sin (radians az)
       let s_s := Real.cos (radians hs) * Real.cos (radians az)
       let cos_theta := s_h * Real.cos (radians t)
           + s_w * (Real.sin (radians t) * Real.sin (radians a))
           + s_s * (Real.sin (radians t) * Real.cos (radians a))
       if cos_theta < 1 / 10000 then (PFloat.nan, PFloat.nan)
       else
         (.val (d * ((s_h * Real.sin (radians t)
             - s_w * (Real.cos (radians t) * Real.sin (radians a))
             - s_s * (Real.cos (radians t) * Real.cos (radians a))) / cos_theta)),
          .val (d * ((s_w * Real.cos (radians a)
             - s_s * Real.sin (radians a)) / cos_theta)))) := by
  simp only [distance_of_points_shadow, direction_cosine_of_sunlight,
    direction_cosine_of_slope_normal_line, cosine_sun_incidence_angle,
    tangent_profile_angle, tangent_sun_azimuth_angle_of_surface, get_error_value]
  split
  · rfl
  · rfl

/-- Embedding of `transmission_rate_base.base_transmission_rate_circle`.
Here `radius` is `spec.radius` and `area` is `spec.area` (set to `π·radius²`
by `HanaBlockSpec.__post_init__` for a circle).  Python `x ** 2` is modelled
as `x · x`; each float division goes through `PFloat.div`, whose `none` result
models the `ZeroDivisionError` CPython raises on a zero divisor. -/
noncomputable def base_transmission_rate_circle (radius area : ℝ)
    (distance_vertical distance_horizontal : PFloat) : Option PFloat :=
  if distance_horizontal.isnan ∧ distance_vertical.isnan then
    some (.val 0)
  else
    let distance := ((distance_vertical.mul distance_vertical).add
        (distance_horizontal.mul distance_horizontal)).sqrt
    if distance.ge (.val (2 * radius)) then
      (PFloat.val 0).div (.val area)
    else do
      let x ← (distance.mul distance).div ((PFloat.val (2 * radius)).mul distance)
      let angle := (PFloat.val 2).mul x.acos
      let frac ← angle.div (.val (2 * Real.pi))
      let area_sector := (PFloat.val (Real.pi * radius ^ 2)).mul frac
      let area_triangle := (PFloat.val (0.5 * radius ^ 2)).mul angle.sin
      let area_transmit := (PFloat.val 2).mul (area_sector.sub area_triangle)
      area_transmit.div (.val area)

/-- C3: for every circular aperture with radius `r > 0`, the analytic circle
transmittance at displacement `(0, 0)` does not return the ratio `1.0`: it
fails, because the half-angle computation divides `distance²` by
`2·r·distance` with `distance = 0`, which raises `ZeroDivisionError` in
Python (modelled by `none`). -/
theorem circle_rate_zero_displacement_raises (r area : ℝ) (hr : 0 < r) :
    base_transmission_rate_circle r area (.val 0) (.val 0) = none := by
  unfold base_transmission_rate_circle
  simp only [PFloat.isnan, PFloat.mul, PFloat.add, PFloat.sqrt, PFloat.ge, PFloat.div]
  rw [if_neg (by simp)]
  rw [if_neg (by
    rw [mul_zero, add_zero, Real.sqrt_zero]
    exact not_le.mpr (by positivity))]
  rw [mul_zero, add_zero, Real.sqrt_zero, mul_zero]
  simp

/-- Witness for C3 at the concrete radius `1`. -/
theorem circle_rate_zero_displacement_raises_witness :
    base_transmission_rate_circle 1 Real.pi (.val 0) (.val 0) = none :=
  circle_rate_zero_displacement_raises 1 Real.pi (by norm_num)

/-- Python `x <= y` on floats: false whenever either operand is NaN. -/
def PFloat.le : PFloat → PFloat → Prop
  | .val a, .val b => a ≤ b
  | _, _ => False

noncomputable instance PFloat.le.instDec : (x y : PFloat) → Decidable (x.le y)
  | .val a, .val b => inferInstanceAs (Decidable (a ≤ b))
  | .nan, .nan => inferInstanceAs (Decidable False)
  | .nan, .val _ => inferInstanceAs (Decidable False)
  | .val _, .nan => inferInstanceAs (Decidable False)

/-- Lift an exact coordinate pair to a pair of Python floats. -/
def toPF (p : ℝ × ℝ) : PFloat × PFloat := (.val p.1, .val p.2)

/-- The vertex dictionary `spec.points` of a triangular aperture: the three
canonical vertices `peak_a`, `peak_b`, `peak_c` set at construction, plus the
displaced copies that `base_transmission_rate_triangle` stores into the same
dictionary in place (`none` models an absent key, as before the first call). -/
structure TriPoints where
  peak_a : ℝ × ℝ
  peak_b : ℝ × ℝ
  peak_c : ℝ × ℝ
  peak_a_dash : Option (PFloat × PFloat)
  peak_b_dash : Option (PFloat × PFloat)
  peak_c_dash : Option (PFloat × PFloat)

/-- Embedding of `transmission_rate_base.judge_is_peak_inside`.  The columns
of the coefficient matrix are `(m00, m10) = B − A` and `(m01, m11) = C − A`;
`np.linalg.inv` is the explicit 2×2 inverse, and a zero determinant models
the `LinAlgError` numpy raises for a singular matrix (`none`).  The code's
containment condition is the non-strict test `s ≥ 0 ∧ t ≥ 0 ∧ s + t ≤ 1`. -/
noncomputable def judge_is_peak_inside (m00 m01 m10 m11 : ℝ) (c0 c1 : PFloat) :
    Option Bool :=
  let det := m00 * m11 - m01 * m10
  if det = 0 then none
  else
    let s := ((PFloat.val (m11 / det)).mul c0).add ((PFloat.val (-m01 / det)).mul c1)
    let t := ((PFloat.val (-m10 / det)).mul c0).add ((PFloat.val (m00 / det)).mul c1)
    if s.ge (.val 0) ∧ t.ge (.val 0) ∧ (s.add t).le (.val 1) then some true
    else some false

/-- Embedding of `transmission_rate_base.get_witch_peak_inside`.  The
dictionary argument holds the three canonical vertices and the three
displaced vertices; the result dictionary is modelled as the list of the six
boolean results in the dictionary's insertion order
`[peak_a, peak_b, peak_c, peak_a_dash, peak_b_dash, peak_c_dash]`. -/
noncomputable def get_witch_peak_inside (pa pb pc : ℝ × ℝ)
    (pad pbd pcd : PFloat × PFloat) : Option (List Bool) := do
  let m00 := pb.1 - pa.1
  let m01 := pc.1 - pa.1
  let m10 := pb.2 - pa.2
  let m11 := pc.2 - pa.2
  let ra ← judge_is_peak_inside m00 m01 m10 m11
      ((PFloat.val pa.1).sub pad.1) ((PFloat.val pa.2).sub pad.2)
  let rb ← judge_is_peak_inside m00 m01 m10 m11
      ((PFloat.val pb.1).sub pad.1) ((PFloat.val pb.2).sub pad.2)
  let rc ← judge_is_peak_inside m00 m01 m10 m11
      ((PFloat.val pc.1).sub pad.1) ((PFloat.val pc.2).sub pad.2)
  let rad ← judge_is_peak_inside m00 m01 m10 m11
      (pad.1.sub (.val pa.1)) (pad.2.sub (.val pa.2))
  let rbd ← judge_is_peak_inside m00 m01 m10 m11
      (pbd.1.sub (.val pa.1)) (pbd.2.sub (.val pa.2))
  let rcd ← judge_is_peak_inside m00 m01 m10 m11
      (pcd.1.sub (.val pa.1)) (pcd.2.sub (.val pa.2))
  return [ra, rb, rc, rad, rbd, rcd]

/-- Embedding of `transmission_rate_base.get_linear_equation`: coefficients
`(p, q, r)` of the line `p·x + q·y + r = 0` through two points, with the
near-vertical case (`|x₁ − x₂|` below the tolerance) handled explicitly. -/
noncomputable def get_linear_equation (x_1 y_1 x_2 y_2 : PFloat) :
    Option (PFloat × PFloat × PFloat) :=
  if (x_1.sub x_2).abs.lt (.val get_error_value) then
    some (.val 1, .val 0, x_1.neg)
  else do
    let p ← (y_2.sub y_1).div (x_2.sub x_1)
    let r ← ((x_2.mul y_1).sub (x_1.mul y_2)).div (x_2.sub x_1)
    return (p, .val (-1), r)

/-- Embedding of `transmission_rate_base.get_point_height_from_line`:
`|p·x + q·y + r| / sqrt(p² + q²)`. -/
noncomputable def get_point_height_from_line (x y p q r : PFloat) : Option PFloat :=
  (((p.mul x).add (q.mul y)).add r).abs.div (((p.mul p).add (q.mul q)).sqrt)

/-- Embedding of `transmission_rate_base.get_point_heights` fused with
`get_target_base_point_and_side`.  The inside vertex is the first `True`
entry of the results dictionary in its insertion order; position `i` in
`[peak_a, peak_b, peak_c, peak_a_dash, peak_b_dash, peak_c_dash]` selects the
inside point, the base point and the two far-side points exactly as the
source's name table does. -/
noncomputable def get_point_heights (peak_check_results : List Bool)
    (pa pb pc : ℝ × ℝ) (pad pbd pcd : PFloat × PFloat) :
    Option (PFloat × PFloat) := do
  let i := peak_check_results.findIdx id
  let inside_point := [toPF pa, toPF pb, toPF pc, pad, pbd, pcd].getD i (toPF pa)
  let base_point := [pad, pbd, pcd, toPF pa, toPF pb, toPF pc].getD i (toPF pa)
  let side_point1 := [pbd, pad, pad, toPF pb, toPF pa, toPF pa].getD i (toPF pa)
  let side_point2 := [pcd, pcd, pbd, toPF pc, toPF pc, toPF pb].getD i (toPF pa)
  let pqr ← get_linear_equation side_point1.1 side_point1.2 side_point2.1 side_point2.2
  let h ← get_point_height_from_line base_point.1 base_point.2 pqr.1 pqr.2.1 pqr.2.2
  let h_dash ← get_point_height_from_line inside_point.1 inside_point.2 pqr.1 pqr.2.1 pqr.2.2
  return (h, h_dash)

/-- Embedding of `transmission_rate_base.base_transmission_rate_triangle`.
The Python code mutates `spec.points` in place, storing the displaced
vertices under `peak_a_dash`, `peak_b_dash`, `peak_c_dash` before testing
containment; the embedding passes that state explicitly and returns the
updated dictionary along with the rate.  The rate is `none` when the Python
code would raise (`LinAlgError` for a degenerate triangle, or
`ZeroDivisionError`); `(h_dash / h) ** 2` is modelled as the square of the
quotient. -/
noncomputable def base_transmission_rate_triangle (points : TriPoints)
    (distance_vertical distance_horizontal : PFloat) : Option PFloat × TriPoints :=
  if distance_horizontal.isnan ∧ distance_vertical.isnan then
    (some (.val 0), points)
  else
    let pad := ((PFloat.val points.peak_a.1).add distance_vertical,
                (PFloat.val points.peak_a.2).add distance_horizontal)
    let pbd := ((PFloat.val points.peak_b.1).add distance_vertical,
                (PFloat.val points.peak_b.2).add distance_horizontal)
    let pcd := ((PFloat.val points.peak_c.1).add distance_vertical,
                (PFloat.val points.peak_c.2).add distance_horizontal)
    let points2 := { points with
        peak_a_dash := some pad, peak_b_dash := some pbd, peak_c_dash := some pcd }
    let rate : Option PFloat := do
      let peak_check_results ← get_witch_peak_inside
          points.peak_a points.peak_b points.peak_c pad pbd pcd
      if peak_check_results.any id then
        let hs ← get_point_heights peak_check_results
            points.peak_a points.peak_b points.peak_c pad pbd pcd
        let q ← hs.2.div hs.1
        return q.mul q
      else
        return .val 0
    (rate, points2)

/-- C4: for every aperture kind (square, circle, triangle), the undefined
displacement sentinel `(NaN, NaN)` — as produced when `cosθ` is below the
`1e-4` tolerance — gives transmittance exactly `0.0`. -/
theorem undefined_displacement_zero_rate (w h area radius : ℝ) (points : TriPoints) :
    base_transmission_rate_square w h area .nan .nan = some (.val 0) ∧
    base_transmission_rate_circle radius area .nan .nan = some (.val 0) ∧
    (base_transmission_rate_triangle points .nan .nan).1 = some (.val 0) := by
  refine ⟨?_, ?_, ?_⟩
  · unfold base_transmission_rate_square
    rw [if_pos ⟨trivial, trivial⟩]
  · unfold base_transmission_rate_circle
    rw [if_pos ⟨trivial, trivial⟩]
  · unfold base_transmission_rate_triangle
    rw [if_pos ⟨trivial, trivial⟩]

/-- C9 (amended): evaluating the triangle transmittance on a real (non-NaN)
displacement mutates the aperture's vertex dictionary: the displaced
vertices are stored back into it under `peak_a_dash`, `peak_b_dash`,
`peak_c_dash` (the canonical `peak_a`, `peak_b`, `peak_c` stay unchanged). -/
theorem triangle_rate_mutates_points (points : TriPoints) (dv dh : ℝ) :
    (base_transmission_rate_triangle points (.val dv) (.val dh)).2 =
      { points with
        peak_a_dash := some (.val (points.peak_a.1 + dv), .val (points.peak_a.2 + dh)),
        peak_b_dash := some (.val (points.peak_b.1 + dv), .val (points.peak_b.2 + dh)),
        peak_c_dash := some (.val (points.peak_c.1 + dv), .val (points.peak_c.2 + dh)) } := by
  unfold base_transmission_rate_triangle
  rw [if_neg (by simp [PFloat.isnan])]
  rfl

/-- Counterexample to C9 as stated: after one call on a concrete triangle
with the non-NaN displacement `(5, 5)`, the vertex dictionary differs from
its value before the call — displaced-vertex entries were added in place. -/
theorem triangle_rate_mutation_cex :
    (base_transmission_rate_triangle
        ⟨(0, 0), (1, 0), (0, 1), none, none, none⟩ (.val 5) (.val 5)).2 ≠
      ⟨(0, 0), (1, 0), (0, 1), none, none, none⟩ := by
  unfold base_transmission_rate_triangle
  rw [if_neg (by simp [PFloat.isnan])]
  intro hcontra
  have := congrArg TriPoints.peak_a_dash hcontra
  simp at this

/-- Formalisation of the claim's (spec-side) notion used by C5, for
comparison with the code: a point `p` lies strictly inside the triangle
`q r s` when its barycentric coordinates with respect to the edges `qr` and
`qs` satisfy `0 < u`, `0 < v`, `u + v < 1`. -/
def strictly_inside (q r s p : ℝ × ℝ) : Prop :=
  ∃ u v : ℝ, 0 < u ∧ 0 < v ∧ u + v < 1 ∧
    p.1 = q.1 + u * (r.1 - q.1) + v * (s.1 - q.1) ∧
    p.2 = q.2 + u * (r.2 - q.2) + v * (s.2 - q.2)

set_option maxHeartbeats 2000000 in
/-- Counterexample to C5 as stated: for the triangle `A=(0,0), B=(1,0),
C=(0,1)` displaced by `(1/2, 0)` (so `A´=(1/2,0), B´=(3/2,0), C´=(1/2,1)`),
no vertex of either triangle lies strictly inside the other — `B` and `A´`
only touch boundaries — yet the code returns the ratio `1/4`, not `0.0`,
because its containment test is non-strict. -/
theorem triangle_rate_boundary_cex :
    (¬ strictly_inside (1/2, 0) (3/2, 0) (1/2, 1) (0, 0)) ∧
    (¬ strictly_inside (1/2, 0) (3/2, 0) (1/2, 1) (1, 0)) ∧
    (¬ strictly_inside (1/2, 0) (3/2, 0) (1/2, 1) (0, 1)) ∧
    (¬ strictly_inside (0, 0) (1, 0) (0, 1) (1/2, 0)) ∧
    (¬ strictly_inside (0, 0) (1, 0) (0, 1) (3/2, 0)) ∧
    (¬ strictly_inside (0, 0) (1, 0) (0, 1) (1/2, 1)) ∧
    (base_transmission_rate_triangle ⟨(0, 0), (1, 0), (0, 1), none, none, none⟩
        (.val (1/2)) (.val 0)).1 = some (.val (1/4)) := by
  refine ⟨?_, ?_, ?_, ?_, ?_, ?_, ?_⟩
  · rintro ⟨u, v, hu, hv, huv, h1, h2⟩; norm_num at h1 h2; linarith
  · rintro ⟨u, v, hu, hv, huv, h1, h2⟩; norm_num at h1 h2; linarith
  · rintro ⟨u, v, hu, hv, huv, h1, h2⟩; norm_num at h1 h2; linarith
  · rintro ⟨u, v, hu, hv, huv, h1, h2⟩; norm_num at h1 h2; linarith
  · rintro ⟨u, v, hu, hv, huv, h1, h2⟩; norm_num at h1 h2; linarith
  · rintro ⟨u, v, hu, hv, huv, h1, h2⟩; norm_num at h1 h2; linarith
  · norm_num [base_transmission_rate_triangle, get_witch_peak_inside,
      judge_is_peak_inside, get_point_heights, get_linear_equation,
      get_point_height_from_line, toPF, PFloat.isnan, PFloat.add, PFloat.sub,
      PFloat.mul, PFloat.abs, PFloat.neg, PFloat.div, PFloat.sqrt, PFloat.ge,
      PFloat.le, PFloat.lt, get_error_value, Real.sqrt_one, List.findIdx_cons,
      List.any_cons, List.any_nil, List.getD_cons_zero, List.getD_cons_succ,
      Bind.bind, Option.bind, Pure.pure, abs_of_nonneg]

/-- C5 (amended): for every triangular aperture and every non-NaN
displacement, the analytic triangle transmittance returns `0.0` when no
vertex of either triangle passes the code's NON-strict containment test
(`s ≥ 0 ∧ t ≥ 0 ∧ s + t ≤ 1`, so a vertex exactly on the other triangle's
boundary counts as inside); a boundary-touching configuration with no
strictly interior vertex can therefore return a nonzero ratio instead. -/
theorem triangle_rate_zero_of_no_inside_vertex (points : TriPoints)
    (dv dh : PFloat) (hnan : ¬ (dh.isnan ∧ dv.isnan)) (results : List Bool)
    (hres : get_witch_peak_inside points.peak_a points.peak_b points.peak_c
        ((PFloat.val points.peak_a.1).add dv, (PFloat.val points.peak_a.2).add dh)
        ((PFloat.val points.peak_b.1).add dv, (PFloat.val points.peak_b.2).add dh)
        ((PFloat.val points.peak_c.1).add dv, (PFloat.val points.peak_c.2).add dh)
        = some results)
    (hfalse : results.any id = false) :
    (base_transmission_rate_triangle points dv dh).1 = some (.val 0) := by
  unfold base_transmission_rate_triangle
  rw [if_neg hnan]
  simp only [hres, Bind.bind, Option.bind, hfalse, Bool.false_eq_true, if_false]
  rfl

/-- Witness for the amended C5 on the unit right triangle displaced by
`(5, 5)`: every one of the six containment tests is false and the rate is
exactly `0.0`. -/
theorem triangle_rate_zero_of_no_inside_vertex_witness :
    (base_transmission_rate_triangle
        ⟨(0, 0), (1, 0), (0, 1), none, none, none⟩ (.val 5) (.val 5)).1 =
      some (.val 0) := by
  refine triangle_rate_zero_of_no_inside_vertex _ _ _ (by simp [PFloat.isnan])
      [false, false, false, false, false, false] ?_ (by simp)
  norm_num [get_witch_peak_inside, judge_is_peak_inside, PFloat.add, PFloat.sub,
    PFloat.mul, PFloat.ge, PFloat.le, PFloat.isnan, Bind.bind, Option.bind, Pure.pure]

/-- Counterexample to C10 as stated: with the finite coordinate
`distance_vertical = 1` meeting its bound (`height = 1`) and
`distance_horizontal = NaN`, the square transmittance returns `0.0`, not
NaN. -/
theorem single_nan_square_cex :
    base_transmission_rate_square 1 1 1 (.val 1) .nan = some (.val 0) ∧
    some (PFloat.val 0) ≠ some PFloat.nan := by
  constructor
  · unfold base_transmission_rate_square
    rw [if_neg (by simp [PFloat.isnan])]
    rw [if_pos (Or.inr (by simp [PFloat.abs, PFloat.ge]))]
  · simp

/-- C10 (amended): the undefined-displacement guard fires only when both
coordinates are NaN.  With exactly one NaN coordinate, the circle
transmittance returns NaN; the square transmittance returns NaN unless the
finite coordinate's absolute value meets its own bound (`|vertical| ≥
height`, resp. `|horizontal| ≥ width`), in which case it returns `0.0`. -/
theorem single_nan_rate (w h area radius : ℝ) (harea : area ≠ 0) (x : ℝ) :
    base_transmission_rate_square w h area (.val x) .nan =
      (if h ≤ |x| then some (.val 0) else some .nan) ∧
    base_transmission_rate_square w h area .nan (.val x) =
      (if w ≤ |x| then some (.val 0) else some .nan) ∧
    base_transmission_rate_circle radius area (.val x) .nan = some .nan ∧
    base_transmission_rate_circle radius area .nan (.val x) = some .nan := by
  have hpi : 2 * Real.pi ≠ 0 := by positivity
  refine ⟨?_, ?_, ?_, ?_⟩
  · unfold base_transmission_rate_square
    rw [if_neg (by simp [PFloat.isnan])]
    simp only [PFloat.abs, PFloat.ge, false_or, PFloat.sub, PFloat.mul, PFloat.div]
    split
    · rfl
    · rfl
  · unfold base_transmission_rate_square
    rw [if_neg (by simp [PFloat.isnan])]
    simp only [PFloat.abs, PFloat.ge, or_false, PFloat.sub, PFloat.mul, PFloat.div]
    split
    · rfl
    · rfl
  · unfold base_transmission_rate_circle
    rw [if_neg (by simp [PFloat.isnan])]
    simp [PFloat.mul, PFloat.add, PFloat.sqrt, PFloat.ge, PFloat.acos, PFloat.sin,
      PFloat.sub, PFloat.div, Bind.bind, Option.bind, hpi, harea]
  · unfold base_transmission_rate_circle
    rw [if_neg (by simp [PFloat.isnan])]
    simp [PFloat.mul, PFloat.add, PFloat.sqrt, PFloat.ge, PFloat.acos, PFloat.sin,
      PFloat.sub, PFloat.div, Bind.bind, Option.bind, hpi, harea]

/-- Witness for the amended C10: square `1 × 1` and circle of area `1` with
displacement `(5, NaN)`. -/
theorem single_nan_rate_witness :
    base_transmission_rate_square 1 1 1 (.val 5) .nan = some (.val 0) ∧
    base_transmission_rate_circle 1 1 (.val 5) .nan = some .nan := by
  have h := single_nan_rate 1 1 1 1 (by norm_num) 5
  refine ⟨?_, h.2.2.1⟩
  have h1 := h.1
  rw [if_pos (by rw [abs_of_nonneg (by norm_num)]; norm_num)] at h1
  exact h1

/-- The fields of `common.HanaBlockSpec` after `__post_init__` has run: the
raw constructor parameters plus the derived `area`, `perimeter`, and the
vertex coordinates the constructor sets for each shape kind (`none` models a
key absent from the `points` dictionary). -/
structure HanaBlockSpecData where
  type : String
  depth : ℝ
  inclination_angle : ℝ
  azimuth_angle : ℝ
  width : ℝ
  height : ℝ
  radius : ℝ
  peak_a : Option (ℝ × ℝ)
  peak_b : Option (ℝ × ℝ)
  peak_c : Option (ℝ × ℝ)
  peak_d : Option (ℝ × ℝ)
  area : ℝ
  perimeter : ℝ

/-- Embedding of `common.HanaBlockSpec.__post_init__`.  The arguments `pa`,
`pb`, `pc` stand for the `points` dictionary entries a triangular aperture is
given at construction (square and circle overwrite `points` wholesale).
`none` models the `ValueError` raised for an unrecognized shape type; the
constructor performs no other validation. -/
noncomputable def hana_block_spec_post_init (type : String)
    (depth inclination_angle azimuth_angle width height radius : ℝ)
    (pa pb pc : ℝ × ℝ) : Option HanaBlockSpecData :=
  if type = "square" then
    some
      { type := type, depth := depth, inclination_angle := inclination_angle,
        azimuth_angle := azimuth_angle, width := width, height := height,
        radius := radius,
        peak_a := some (0, 0), peak_b := some (width, 0),
        peak_c := some (width, height), peak_d := some (0, height),
        area := width * height, perimeter := (width + height) * 2 }
  else if type = "circle" then
    some
      { type := type, depth := depth, inclination_angle := inclination_angle,
        azimuth_angle := azimuth_angle, width := radius * 2, height := radius * 2,
        radius := radius,
        peak_a := some (radius, radius), peak_b := none, peak_c := none,
        peak_d := none,
        area := Real.pi * radius ^ 2, perimeter := Real.pi * radius * 2 }
  else if type = "triangle" then
    some
      { type := type, depth := depth, inclination_angle := inclination_angle,
        azimuth_angle := azimuth_angle, width := max pa.1 (max pb.1 pc.1),
        height := max pa.2 (max pb.2 pc.2), radius := radius,
        peak_a := some pa, peak_b := some pb, peak_c := some pc, peak_d := none,
        area := |(pa.1 * pb.2 + pb.1 * pc.2 + pc.1 * pa.2
            - pa.2 * pb.1 - pb.2 * pc.1 - pc.2 * pa.1) / 2|,
        perimeter := Real.sqrt ((pa.1 - pb.1) ^ 2 + (pa.2 - pb.2) ^ 2)
            + Real.sqrt ((pb.1 - pc.1) ^ 2 + (pb.2 - pc.2) ^ 2)
            + Real.sqrt ((pc.1 - pa.1) ^ 2 + (pc.2 - pa.2) ^ 2) }
  else none

/-- C6 (amended): constructing an aperture spec fails (raises `ValueError`)
exactly for an unrecognized shape kind; the constructor performs no other
validation, so non-positive width/height/radius and degenerate (collinear or
duplicate) triangle vertices are accepted silently. -/
theorem hana_block_spec_post_init_fails_iff (type : String)
    (depth incl azim width height radius : ℝ) (pa pb pc : ℝ × ℝ) :
    hana_block_spec_post_init type depth incl azim width height radius pa pb pc
        = none ↔ (type ≠ "square" ∧ type ≠ "circle" ∧ type ≠ "triangle") := by
  unfold hana_block_spec_post_init
  split_ifs with h1 h2 h3 <;> simp_all

/-- Counterexample to C6 as stated: a square with negative width `-5` and a
degenerate triangle whose three vertices coincide are both constructed
without any error. -/
theorem hana_block_spec_accepts_invalid_params :
    (hana_block_spec_post_init "square" 100 90 0 (-5) 10 0 (0, 0) (0, 0) (0, 0)).isSome
      = true ∧
    (hana_block_spec_post_init "triangle" 100 90 0 0 0 0 (1, 1) (1, 1) (1, 1)).isSome
      = true := by
  constructor
  · simp [hana_block_spec_post_init]
  · simp [hana_block_spec_post_init]

/-- Python `int(...)` applied to a float: truncation toward zero. -/
def py_int (q : ℚ) : ℤ := if 0 ≤ q then ⌊q⌋ else ⌈q⌉

/-- Embedding of `transmission_rate_base_mesh_method.get_pixel`: millimetres
to pixels at the given resolution (`1 inch = 25.4 mm`), truncated by Python
`int`.  Exact rational arithmetic stands in for the float arithmetic. -/
def get_pixel (length : ℚ) (resolution : ℤ) : ℤ :=
  py_int ((resolution : ℚ) * length / (254 / 10))

/-- Counterexample to C7 as stated: at resolution `350`, a length of `1` mm
has `round(350·1/25.4) = round(13.779…) = 14`, but the code returns `13` —
it truncates instead of rounding to the nearest integer. -/
theorem get_pixel_truncates_cex :
    get_pixel 1 350 = 13 ∧ round ((350 : ℚ) * 1 / (254 / 10)) = 14 ∧ (13 : ℤ) ≠ 14 := by
  refine ⟨?_, ?_, by decide⟩
  · norm_num [get_pixel, py_int]
  · rw [round_eq]
    norm_num

/-- C7 (amended): the raster method converts every millimetre length to
pixels by truncation toward zero (Python `int`), not by rounding to nearest;
for non-negative lengths and resolutions this is the floor
`⌊resolution · mm / 25.4⌋`. -/
theorem get_pixel_floor (length : ℚ) (resolution : ℤ)
    (hl : 0 ≤ length) (hr : 0 ≤ resolution) :
    get_pixel length resolution = ⌊(resolution : ℚ) * length / (254 / 10)⌋ := by
  unfold get_pixel py_int
  rw [if_pos (div_nonneg (mul_nonneg (by exact_mod_cast hr) hl) (by norm_num))]

/-- Witness for the amended C7 at length `1` mm, resolution `350`. -/
theorem get_pixel_floor_witness :
    get_pixel 1 350 = ⌊(350 : ℚ) * 1 / (254 / 10)⌋ ∧
      ⌊(350 : ℚ) * 1 / (254 / 10)⌋ = 13 :=
  ⟨get_pixel_floor 1 350 (by norm_num) (by norm_num), by norm_num⟩

/-- Embedding of Python `math.degrees`: radians to degrees. -/
noncomputable def degrees (x : ℝ) : ℝ := x * 180 / Real.pi

/-- Embedding of `transmission_rate_diffused_light.get_random_sun_altitude`:
maps `u ∈ [0, 1]` to an altitude via cosine-weighted hemisphere sampling. -/
noncomputable def get_random_sun_altitude (random_number : ℝ) : ℝ :=
  90 - degrees (Real.arccos (Real.sqrt (1 - random_number)))

/-- Embedding of
`transmission_rate_diffused_light.get_random_sun_azimuth_angle`: maps
`u ∈ [0, 1]` to `degrees(2πu)`, normalized to `(−180°, 180°]`. -/
noncomputable def get_random_sun_azimuth_angle (random_number : ℝ) : ℝ :=
  let angle := degrees (2 * Real.pi * random_number)
  if angle > 180 then angle - 360 else angle

/-- Embedding of the sample grid `np.arange(0, 1 + r_step, r_step)` with
`r_step = 1.0 / math.sqrt(10 ** 6) = 1/1000` (the float square root of
`10^6` is exactly `1000.0`): the 1001 values `k/1000`, `k = 0 … 1000`, in
order.  This is a fixed sequence; no random draw is involved. -/
noncomputable def random_number_grid : List ℝ :=
  (List.range 1001).map (fun k => (k : ℝ) / 1000)

/-- Embedding of
`transmission_rate_diffused_light.get_random_angles_list`: the deterministic
full cross product (in `itertools.product` order) of the altitude samples
and the azimuth samples restricted to `[−90°, 90°]`; `none` models the
`ValueError` raised for an unrecognized calculation target. -/
noncomputable def get_random_angles_list (calc_target : String) :
    Option (List (ℝ × ℝ)) :=
  let sun_altitudes :=
    if calc_target = "sky" then
      some (random_number_grid.map (fun x => get_random_sun_altitude x))
    else if calc_target = "reflected" then
      some (random_number_grid.map (fun x => -1 * get_random_sun_altitude x))
    else none
  match sun_altitudes with
  | none => none
  | some alts =>
      let sun_azimuth_angles :=
        (random_number_grid.map (fun x => get_random_sun_azimuth_angle x)).filter
          (fun a => decide (-90 ≤ a) && decide (a ≤ 90))
      some (alts.flatMap (fun hs => sun_azimuth_angles.map (fun az => (hs, az))))

/-- The shape dispatch inside the loop of
`transmission_rate_diffused_light.diffused_light_transmission_rate` (`none`
models the `ValueError` for an unknown shape type).  The Python triangle
branch mutates `spec.points`, but it only reads the canonical `peak_a/b/c`
entries and overwrites the displaced entries before every use, so passing
the same `points` value at every iteration is faithful. -/
noncomputable def base_transmission_rate_of_type (sptype : String)
    (width height area radius : ℝ) (points : TriPoints)
    (dv dh : PFloat) : Option PFloat :=
  if sptype = "square" then base_transmission_rate_square width height area dv dh
  else if sptype = "circle" then base_transmission_rate_circle radius area dv dh
  else if sptype = "triangle" then (base_transmission_rate_triangle points dv dh).1
  else none

/-- Embedding of
`transmission_rate_diffused_light.diffused_light_transmission_rate`.  The
CSV debug output is I/O that does not affect the returned value.  The result
is `statistics.mean` of the per-sample rates — their sum divided by their
count; `none` models an exception propagating out of any per-sample
computation (or a mean of an empty list). -/
noncomputable def diffused_light_transmission_rate (calc_target sptype : String)
    (inclination_angle azimuth_angle depth width height area radius : ℝ)
    (points : TriPoints) : Option PFloat := do
  let random_angles ← get_random_angles_list calc_target
  let rate_s ← random_angles.mapM (fun case =>
    let d := distance_of_points_shadow inclination_angle azimuth_angle depth
        case.1 case.2
    base_transmission_rate_of_type sptype width height area radius points d.1 d.2)
  (rate_s.foldl PFloat.add (.val 0)).div (.val rate_s.length)

/-- C8: the diffuse-light transmittance is deterministic — two calls with
the same calculation target and the same aperture data return identical
results — because the altitude/azimuth sample grid is the fixed
deterministic sequence built (with no random draw) from the cosine-weighted
map `90 − degrees(acos(sqrt(1 − u)))` (negated for `reflected`) and the
azimuth map `degrees(2πu)` normalized and restricted to `[−90°, 90°]` over
`u = k/1000`, and the result is the unweighted arithmetic mean (sum divided
by count) of the analytic rates over the full cross product. -/
theorem diffused_light_deterministic (calc_target sptype : String)
    (incl azim depth width height area radius : ℝ) (points : TriPoints) :
    diffused_light_transmission_rate calc_target sptype incl azim depth
        width height area radius points =
      diffused_light_transmission_rate calc_target sptype incl azim depth
        width height area radius points ∧
    get_random_angles_list "sky" =
      some ((((List.range 1001).map (fun k => (k : ℝ) / 1000)).map
          (fun u => 90 - degrees (Real.arccos (Real.sqrt (1 - u))))).flatMap
        (fun hs => ((((List.range 1001).map (fun k => (k : ℝ) / 1000)).map
              (fun u => if degrees (2 * Real.pi * u) > 180 then
                  degrees (2 * Real.pi * u) - 360
                else degrees (2 * Real.pi * u))).filter
            (fun a => decide (-90 ≤ a) && decide (a ≤ 90))).map
          (fun az => (hs, az)))) ∧
    get_random_angles_list "reflected" =
      some ((((List.range 1001).map (fun k => (k : ℝ) / 1000)).map
          (fun u => -1 * (90 - degrees (Real.arccos (Real.sqrt (1 - u)))))).flatMap
        (fun hs => ((((List.range 1001).map (fun k => (k : ℝ) / 1000)).map
              (fun u => if degrees (2 * Real.pi * u) > 180 then
                  degrees (2 * Real.pi * u) - 360
                else degrees (2 * Real.pi * u))).filter
            (fun a => decide (-90 ≤ a) && decide (a ≤ 90))).map
          (fun az => (hs, az)))) ∧
    diffused_light_transmission_rate calc_target sptype incl azim depth
        width height area radius points =
      (get_random_angles_list calc_target).bind (fun random_angles =>
        (random_angles.mapM (fun case =>
            base_transmission_rate_of_type sptype width height area radius points
              (distance_of_points_shadow incl azim depth case.1 case.2).1
              (distance_of_points_shadow incl azim depth case.1 case.2).2)).bind
          (fun rate_s =>
            (rate_s.foldl PFloat.add (.val 0)).div (.val rate_s.length))) := by
  refine ⟨rfl, ?_, ?_, rfl⟩
  · simp [get_random_angles_list, random_number_grid, get_random_sun_altitude,
      get_random_sun_azimuth_angle]
  · simp [get_random_angles_list, random_number_grid, get_random_sun_altitude,
      get_random_sun_azimuth_angle]

end HanaBlock
